import Mathlib

/-!
Verification of the crediTask backend core (task marketplace CRUD over a
relational store) against its natural-language specification.

The embedding translates the FastAPI endpoint handlers in
`backend/app/api/v1/endpoints/{tasks,projects,notifications}.py` and the
SQLAlchemy models in `backend/app/models/` into pure Lean functions over an
explicit store (`DB`).  Conventions:

* UUID primary keys are opaque identifiers, modelled as `Nat`.
* SQL `Float` columns (`budget`, `payout`, `hourly_rate`) carry opaque numeric
  payloads: no endpoint performs arithmetic on them, they are only stored and
  returned, so they are modelled as `Int`.
* `DateTime` values are opaque, modelled as `Nat`.  The `created_at` /
  `updated_at` columns are server-assigned by the store (`func.now()`), not by
  application logic, and no endpoint reads them, so they are omitted.
* An HTTP request handler becomes a function from the acting user, its
  parameters and the current store to `Except ApiError` of (new store, body).
  Raising `HTTPException` before any mutation corresponds to an `error`
  result, which carries no store: an error leaves the store unchanged,
  matching the all-or-nothing transaction semantics of the handlers.
* Each SQLAlchemy query is translated to the corresponding `List` operation
  (`find?`, `filter`, `drop`/`take` for offset/limit).
-/

namespace CrediTask

/-- Error taxonomy of the handlers: `HTTPException` status codes 404, 403 and
400, each with its `detail` string.  `serverError` models the unhandled Python
`AttributeError` that would occur if a task's parent project were missing
(unreachable in a store satisfying the `project_id` foreign key, which is
declared `nullable=False`). -/
inductive ApiError where
  | notFound (detail : String)
  | forbidden (detail : String)
  | badRequest (detail : String)
  | serverError (detail : String)
deriving DecidableEq

/-- `app/models/user.py` `User`.  Only `id` and `role` are ever read by the
endpoints modelled here; the profile columns (`email`, `name`,
`hashed_password`, `skills`, `rating`, `wallet_balance`, `avatar_url`, `tier`,
`onboarding_completed`, `is_active`) are stored and returned by other routes
but never consulted by the project/task/notification handlers, so they are
omitted from the embedding. -/
structure User where
  id : Nat
  role : String
deriving DecidableEq

/-- `app/models/project.py` `Project` (timestamps omitted, see header). -/
structure Project where
  id : Nat
  client_id : Nat
  title : String
  description : String
  tags : List String
  budget : Int
  status : String
deriving DecidableEq

/-- `app/models/task.py` `Task` (timestamps omitted, see header). -/
structure Task where
  id : Nat
  project_id : Nat
  title : String
  description : String
  weight : Int
  assignee_id : Option Nat
  status : String
  payout : Int
  deadline : Option Nat
  pricing_type : String
  hourly_rate : Option Int
  estimated_hours : Option Int
  required_skills : List String
  auto_assign : Bool
  application_window_minutes : Int
deriving DecidableEq

/-- `app/models/notification.py` `Notification` (timestamps omitted). -/
structure Notification where
  id : Nat
  user_id : Nat
  title : String
  message : String
  type : String
  read : Bool
deriving DecidableEq

/-- The relational store: the four tables reached through the session. -/
structure DB where
  users : List User
  projects : List Project
  tasks : List Task
  notifications : List Notification
deriving DecidableEq

/-- `select(Task).where(Task.id == task_id)` followed by
`scalar_one_or_none()`. -/
def findTask (task_id : Nat) (db : DB) : Option Task :=
  db.tasks.find? (fun t => t.id == task_id)

/-- `select(Project).where(Project.id == project_id)` followed by
`scalar_one_or_none()`. -/
def findProject (project_id : Nat) (db : DB) : Option Project :=
  db.projects.find? (fun p => p.id == project_id)

/-- Writing the mutated row back: every row with the given id is replaced
(ids are primary keys, so at most one row matches). -/
def replaceTask (task_id : Nat) (t' : Task) (l : List Task) : List Task :=
  l.map (fun t => if t.id == task_id then t' else t)

/-- Same as `replaceTask` for the `projects` table. -/
def replaceProject (project_id : Nat) (p' : Project) (l : List Project) : List Project :=
  l.map (fun p => if p.id == project_id then p' else p)

/-- The claim postcondition of `claim_task`:
`task.assignee_id = current_user.id; task.status = "assigned"`. -/
def claimedTask (w : User) (t : Task) : Task :=
  { t with assignee_id := some w.id, status := "assigned" }

/-- `POST /tasks/{task_id}/claim` — `claim_task` in
`app/api/v1/endpoints/tasks.py`.  Role gate, then existence, then the guarded
precondition `status == "open" and assignee_id is None`; on success both
fields are written in the single row update committed by the transaction. -/
def claim_task (current_user : User) (task_id : Nat) (db : DB) :
    Except ApiError (DB × Task) :=
  if current_user.role != "worker" then
    .error (.forbidden "Only workers can claim tasks")
  else
    match findTask task_id db with
    | none => .error (.notFound "Task not found")
    | some task =>
      if task.status != "open" || task.assignee_id.isSome then
        .error (.badRequest "Task is not available for claiming")
      else
        let task' := claimedTask current_user task
        .ok ({ db with tasks := replaceTask task_id task' db.tasks }, task')

/-- Tests whether a handler result is the 400 BadRequest error. -/
def resultIsBadRequest (r : Except ApiError (DB × Task)) : Bool :=
  match r with
  | .error (.badRequest _) => true
  | _ => false

-- Example store used by the witnesses: two clients, one worker, two
-- projects, an open unassigned task and an already-assigned task.

def aliceC : User := { id := 1, role := "client" }

def bobW : User := { id := 2, role := "worker" }

def carolC : User := { id := 3, role := "client" }

def project10 : Project :=
  { id := 10, client_id := 1, title := "A", description := "p", tags := [],
    budget := 10, status := "open" }

def project11 : Project :=
  { id := 11, client_id := 3, title := "B", description := "q", tags := [],
    budget := 7, status := "open" }

def task100 : Task :=
  { id := 100, project_id := 10, title := "t100", description := "d",
    weight := 1, assignee_id := none, status := "open", payout := 5,
    deadline := none, pricing_type := "fixed", hourly_rate := none,
    estimated_hours := none, required_skills := [], auto_assign := false,
    application_window_minutes := 60 }

def task101 : Task :=
  { id := 101, project_id := 10, title := "t101", description := "d1",
    weight := 2, assignee_id := some 2, status := "assigned", payout := 9,
    deadline := none, pricing_type := "fixed", hourly_rate := none,
    estimated_hours := none, required_skills := [], auto_assign := false,
    application_window_minutes := 60 }

def exDB : DB :=
  { users := [aliceC, bobW, carolC], projects := [project10, project11],
    tasks := [task100, task101], notifications := [] }

/-- In a list whose first row matching the id is `task`, replacing by a row
with the same id makes that row the first match. -/
theorem find?_replaceTask (l : List Task) (task_id : Nat) (task task' : Task)
    (hf : l.find? (fun t => t.id == task_id) = some task)
    (hid : task'.id = task.id) :
    (replaceTask task_id task' l).find? (fun t => t.id == task_id) = some task' := by
  induction l with
  | nil => simp [List.find?] at hf
  | cons a l ih =>
    by_cases ha : (a.id == task_id) = true
    · rw [@List.find?_cons_of_pos _ (fun t => t.id == task_id) a l ha] at hf
      injection hf with hf
      subst hf
      have hid' : (task'.id == task_id) = true := by
        rw [hid]; exact ha
      simp only [replaceTask, List.map_cons, ha, if_true]
      exact @List.find?_cons_of_pos _ (fun t => t.id == task_id) task' _ hid'
    · have ha' : (a.id == task_id) = false := Bool.eq_false_iff.mpr ha
      rw [@List.find?_cons_of_neg _ (fun t => t.id == task_id) a l ha] at hf
      simp only [replaceTask, List.map_cons, ha', Bool.false_eq_true, if_false]
      rw [@List.find?_cons_of_neg _ (fun t => t.id == task_id) a _ ha]
      exact ih hf

/-- Claim C1: for every worker `w` and every stored task with
`status == "open"` and `assignee_id == null`, `claim_task` succeeds; the
result and the stored row have `assignee_id = w.id` and
`status = "assigned"`, and both fields are written in the same single update
of the `tasks` table (the one `replaceTask`), the rest of the store
untouched. -/
theorem claim_open_unassigned_succeeds (w : User) (db : DB) (task_id : Nat)
    (task : Task)
    (hrole : w.role = "worker")
    (hfind : findTask task_id db = some task)
    (hstatus : task.status = "open")
    (hass : task.assignee_id = none) :
    claim_task w task_id db =
      .ok ({ db with tasks := replaceTask task_id (claimedTask w task) db.tasks },
           claimedTask w task) ∧
    (claimedTask w task).assignee_id = some w.id ∧
    (claimedTask w task).status = "assigned" ∧
    findTask task_id
      { db with tasks := replaceTask task_id (claimedTask w task) db.tasks } =
      some (claimedTask w task) := by
  refine ⟨?_, rfl, rfl, ?_⟩
  · simp [claim_task, hrole, hfind, hstatus, hass]
  · have hid : (claimedTask w task).id = task.id := rfl
    simpa [findTask] using find?_replaceTask db.tasks task_id task (claimedTask w task) hfind hid

/-- Witness for C1: the worker claims the open unassigned task 100 of the
example store. -/
theorem claim_open_unassigned_succeeds_witness :
    claim_task bobW 100 exDB =
      .ok ({ exDB with tasks := replaceTask 100 (claimedTask bobW task100) exDB.tasks },
           claimedTask bobW task100) ∧
    (claimedTask bobW task100).assignee_id = some bobW.id ∧
    (claimedTask bobW task100).status = "assigned" ∧
    findTask 100
      { exDB with tasks := replaceTask 100 (claimedTask bobW task100) exDB.tasks } =
      some (claimedTask bobW task100) :=
  claim_open_unassigned_succeeds bobW exDB 100 task100 rfl rfl rfl rfl

/-- Claim C10: the role gate of `claim_task` runs before the existence
lookup, so every non-worker actor receives 403 Forbidden on every task id,
existing or not. -/
theorem claim_nonworker_forbidden (u : User) (task_id : Nat) (db : DB)
    (hrole : (u.role == "worker") = false) :
    claim_task u task_id db = .error (.forbidden "Only workers can claim tasks") := by
  simp [claim_task, bne, hrole]

/-- Witness for C10: a client claiming the nonexistent task id 999 is
rejected by the role gate, never observing NotFound. -/
theorem claim_nonworker_forbidden_witness :
    (carolC.role == "worker") = false ∧
    findTask 999 exDB = none ∧
    claim_task carolC 999 exDB = .error (.forbidden "Only workers can claim tasks") :=
  ⟨rfl, rfl, claim_nonworker_forbidden carolC 999 exDB rfl⟩

/-- Counterexample to C2 as stated: the claim says an unavailable task yields
BadRequest "regardless of the actor's role", but the role gate fires first.
The client `aliceC` claiming the existing, already-assigned task 101 receives
403 Forbidden, not 400 BadRequest. -/
theorem claim_unavailable_nonworker_not_badrequest :
    (task101.status == "open") = false ∧
    findTask 101 exDB = some task101 ∧
    claim_task aliceC 101 exDB = .error (.forbidden "Only workers can claim tasks") ∧
    resultIsBadRequest (claim_task aliceC 101 exDB) = false :=
  ⟨rfl, rfl, rfl, rfl⟩

/-- Claim C2 amended: for every *worker* and every stored task violating the
availability precondition (`status != "open"` or `assignee_id` set), the
claim fails with 400 BadRequest "Task is not available for claiming"; the
error is raised before any mutation, so the store is unchanged (error results
carry no store).  Non-worker actors are instead rejected by the 403 role
gate. -/
theorem claim_unavailable_badrequest (w : User) (db : DB) (task_id : Nat)
    (task : Task)
    (hrole : w.role = "worker")
    (hfind : findTask task_id db = some task)
    (hunavail : (task.status != "open" || task.assignee_id.isSome) = true) :
    claim_task w task_id db = .error (.badRequest "Task is not available for claiming") := by
  simp [claim_task, hrole, hfind, hunavail]

/-- Witness for the amended C2: the worker `bobW` cannot claim the assigned
task 101. -/
theorem claim_unavailable_badrequest_witness :
    (task101.status != "open" || task101.assignee_id.isSome) = true ∧
    claim_task bobW 101 exDB = .error (.badRequest "Task is not available for claiming") :=
  ⟨rfl, claim_unavailable_badrequest bobW exDB 101 task101 rfl rfl rfl⟩

/-- `GET /projects/{project_id}` — `get_project` in
`app/api/v1/endpoints/projects.py`.  Lookup, then a permission check that
only constrains actors whose role is "client". -/
def get_project (current_user : User) (project_id : Nat) (db : DB) :
    Except ApiError Project :=
  match findProject project_id db with
  | none => .error (.notFound "Project not found")
  | some project =>
    if current_user.role == "client" && project.client_id != current_user.id then
      .error (.forbidden "Not authorized to view this project")
    else
      .ok project

/-- Claim C6: reading a project by id yields NotFound for every actor when
the id is absent; Forbidden for a client who does not own the project; and
success for every worker on every existing project, with no ownership
condition. -/
theorem get_project_auth (actor : User) (project_id : Nat) (db : DB) :
    (findProject project_id db = none →
      get_project actor project_id db = .error (.notFound "Project not found")) ∧
    (∀ P : Project, findProject project_id db = some P →
      actor.role = "client" → P.client_id ≠ actor.id →
      get_project actor project_id db =
        .error (.forbidden "Not authorized to view this project")) ∧
    (∀ P : Project, findProject project_id db = some P →
      actor.role = "worker" →
      get_project actor project_id db = .ok P) := by
  refine ⟨?_, ?_, ?_⟩
  · intro h
    simp [get_project, h]
  · intro P hfind hrole hown
    have hb : (P.client_id != actor.id) = true := bne_iff_ne.mpr hown
    simp [get_project, hfind, hrole, hb]
  · intro P hfind hrole
    simp [get_project, hfind, hrole]

/-- Witness for C6: nonexistent id 99 is NotFound for the worker; `carolC`
cannot read `aliceC`'s project 10; the worker `bobW` reads project 10 it does
not own. -/
theorem get_project_auth_witness :
    get_project bobW 99 exDB = .error (.notFound "Project not found") ∧
    get_project carolC 10 exDB = .error (.forbidden "Not authorized to view this project") ∧
    get_project bobW 10 exDB = .ok project10 :=
  ⟨(get_project_auth bobW 99 exDB).1 rfl,
   (get_project_auth carolC 10 exDB).2.1 project10 rfl rfl (by decide),
   (get_project_auth bobW 10 exDB).2.2 project10 rfl rfl⟩

/-- The ORM cascade `cascade="all, delete-orphan"` on `Project.tasks`
(`app/models/project.py`): deleting a project deletes every task whose
`project_id` references it, in the same transaction as the project row
delete. -/
def cascadeDeleteProject (project_id : Nat) (db : DB) : DB :=
  { db with
    projects := db.projects.filter (fun p => !(p.id == project_id)),
    tasks := db.tasks.filter (fun t => !(t.project_id == project_id)) }

/-- `DELETE /projects/{project_id}` — `delete_project` in
`app/api/v1/endpoints/projects.py`. -/
def delete_project (current_user : User) (project_id : Nat) (db : DB) :
    Except ApiError (DB × String) :=
  match findProject project_id db with
  | none => .error (.notFound "Project not found")
  | some project =>
    if project.client_id != current_user.id then
      .error (.forbidden "Not authorized to delete this project")
    else
      .ok (cascadeDeleteProject project_id db, "Project deleted successfully")

/-- No stored project has the given id. -/
def noProjectWithId (project_id : Nat) (db : DB) : Bool :=
  db.projects.all (fun p => !(p.id == project_id))

/-- No stored task belongs to the given project. -/
def noTaskOfProject (project_id : Nat) (db : DB) : Bool :=
  db.tasks.all (fun t => !(t.project_id == project_id))

/-- Claim C3: the owning client deleting a project removes the project row
and every task referencing it in the one atomic store update
(`cascadeDeleteProject`), leaving users and notifications untouched; and on
the abort paths (project absent, actor not the owner) an error is returned
that carries no store change, so the project and all its tasks remain. -/
theorem delete_project_cascades (c : User) (project_id : Nat) (db : DB) :
    (∀ P : Project, findProject project_id db = some P → P.client_id = c.id →
      delete_project c project_id db =
        .ok (cascadeDeleteProject project_id db, "Project deleted successfully") ∧
      noProjectWithId project_id (cascadeDeleteProject project_id db) = true ∧
      noTaskOfProject project_id (cascadeDeleteProject project_id db) = true ∧
      (cascadeDeleteProject project_id db).users = db.users ∧
      (cascadeDeleteProject project_id db).notifications = db.notifications) ∧
    (findProject project_id db = none →
      delete_project c project_id db = .error (.notFound "Project not found")) ∧
    (∀ P : Project, findProject project_id db = some P → P.client_id ≠ c.id →
      delete_project c project_id db =
        .error (.forbidden "Not authorized to delete this project")) := by
  refine ⟨?_, ?_, ?_⟩
  · intro P hfind hown
    refine ⟨by simp [delete_project, hfind, hown], ?_, ?_, rfl, rfl⟩
    · rw [noProjectWithId, List.all_eq_true]
      intro p hp
      simpa using (List.mem_filter.mp hp).2
    · rw [noTaskOfProject, List.all_eq_true]
      intro t ht
      simpa using (List.mem_filter.mp ht).2
  · intro h
    simp [delete_project, h]
  · intro P hfind hown
    have hb : (P.client_id != c.id) = true := bne_iff_ne.mpr hown
    simp [delete_project, hfind, hb]

/-- Witness for C3: `aliceC` deletes project 10; afterwards neither the
project nor its tasks 100, 101 exist, and `carolC` is refused on the
untouched project 10. -/
theorem delete_project_cascades_witness :
    delete_project aliceC 10 exDB =
      .ok (cascadeDeleteProject 10 exDB, "Project deleted successfully") ∧
    noProjectWithId 10 (cascadeDeleteProject 10 exDB) = true ∧
    noTaskOfProject 10 (cascadeDeleteProject 10 exDB) = true ∧
    delete_project carolC 10 exDB =
      .error (.forbidden "Not authorized to delete this project") ∧
    delete_project aliceC 99 exDB = .error (.notFound "Project not found") := by
  have h := delete_project_cascades aliceC 10 exDB
  have hs := h.1 project10 rfl rfl
  exact ⟨hs.1, hs.2.1, hs.2.2.1,
    (delete_project_cascades carolC 10 exDB).2.2 project10 rfl (by decide),
    (delete_project_cascades aliceC 99 exDB).2.1 rfl⟩

/-- `app/schemas/project.py` `ProjectUpdate`: every field optional.  The
handlers read the request through `dict(exclude_unset=True)`, so the outer
`Option` models presence of the field in the request body (`none` = unset,
left untouched). -/
structure ProjectUpdate where
  title : Option String := none
  description : Option String := none
  tags : Option (List String) := none
  budget : Option Int := none
  status : Option String := none
deriving DecidableEq

/-- `app/schemas/task.py` `TaskUpdate`.  As in `ProjectUpdate` the outer
`Option` models presence in the request; for the nullable columns
(`deadline`, `assignee_id`, `hourly_rate`, `estimated_hours`) the inner
`Option` is the stored nullable value, so a present field may also set the
column to null. -/
structure TaskUpdate where
  title : Option String := none
  description : Option String := none
  weight : Option Int := none
  payout : Option Int := none
  deadline : Option (Option Nat) := none
  status : Option String := none
  assignee_id : Option (Option Nat) := none
  pricing_type : Option String := none
  hourly_rate : Option (Option Int) := none
  estimated_hours : Option (Option Int) := none
  required_skills : Option (List String) := none
  auto_assign : Option Bool := none
deriving DecidableEq

/-- The `for field, value in update_data.items(): setattr(project, field,
value)` loop of `update_project`, written as the explicit per-field merge it
performs: a field present in the request overwrites, an unset field keeps the
stored value. -/
def applyProjectUpdate (p : Project) (u : ProjectUpdate) : Project :=
  { p with
    title := u.title.getD p.title,
    description := u.description.getD p.description,
    tags := u.tags.getD p.tags,
    budget := u.budget.getD p.budget,
    status := u.status.getD p.status }

/-- The `setattr` loop of `update_task`, as the explicit per-field merge. -/
def applyTaskUpdate (t : Task) (u : TaskUpdate) : Task :=
  { t with
    title := u.title.getD t.title,
    description := u.description.getD t.description,
    weight := u.weight.getD t.weight,
    payout := u.payout.getD t.payout,
    deadline := u.deadline.getD t.deadline,
    status := u.status.getD t.status,
    assignee_id := u.assignee_id.getD t.assignee_id,
    pricing_type := u.pricing_type.getD t.pricing_type,
    hourly_rate := u.hourly_rate.getD t.hourly_rate,
    estimated_hours := u.estimated_hours.getD t.estimated_hours,
    required_skills := u.required_skills.getD t.required_skills,
    auto_assign := u.auto_assign.getD t.auto_assign }

/-- `PUT /projects/{project_id}` — `update_project` in
`app/api/v1/endpoints/projects.py`. -/
def update_project (current_user : User) (project_id : Nat)
    (project_update : ProjectUpdate) (db : DB) : Except ApiError (DB × Project) :=
  match findProject project_id db with
  | none => .error (.notFound "Project not found")
  | some project =>
    if project.client_id != current_user.id then
      .error (.forbidden "Not authorized to update this project")
    else
      let project' := applyProjectUpdate project project_update
      .ok ({ db with projects := replaceProject project_id project' db.projects },
           project')

/-- `PUT /tasks/{task_id}` — `update_task` in
`app/api/v1/endpoints/tasks.py`.  The handler reads `task.project` (loaded by
`selectinload`) for the client ownership check; the `elif` chain means the
worker check is only consulted when the client check did not fire. -/
def update_task (current_user : User) (task_id : Nat) (task_update : TaskUpdate)
    (db : DB) : Except ApiError (DB × Task) :=
  match findTask task_id db with
  | none => .error (.notFound "Task not found")
  | some task =>
    match findProject task.project_id db with
    | none => .error (.serverError "task has no parent project")
    | some project =>
      if current_user.role == "client" && project.client_id != current_user.id then
        .error (.forbidden "Not authorized to update this task")
      else if current_user.role == "worker" && task.assignee_id != some current_user.id then
        .error (.forbidden "Not authorized to update this task")
      else
        let task' := applyTaskUpdate task task_update
        .ok ({ db with tasks := replaceTask task_id task' db.tasks }, task')

/-- Claim C7: both update handlers apply a partial patch — for the owning
client, the updated entity agrees with the request on every present field and
with the prior stored value on every absent field, field by field
(`Option.getD` states both directions at once: `some v` overwrites with `v`,
`none` keeps the prior value). -/
theorem update_partial_patch (c : User) (db : DB)
    (project_id : Nat) (P : Project) (u : ProjectUpdate)
    (task_id : Nat) (T : Task) (tu : TaskUpdate) :
    (findProject project_id db = some P → P.client_id = c.id →
      update_project c project_id u db =
        .ok ({ db with projects := replaceProject project_id (applyProjectUpdate P u) db.projects },
             applyProjectUpdate P u) ∧
      (applyProjectUpdate P u).title = u.title.getD P.title ∧
      (applyProjectUpdate P u).description = u.description.getD P.description ∧
      (applyProjectUpdate P u).tags = u.tags.getD P.tags ∧
      (applyProjectUpdate P u).budget = u.budget.getD P.budget ∧
      (applyProjectUpdate P u).status = u.status.getD P.status ∧
      (applyProjectUpdate P u).id = P.id ∧
      (applyProjectUpdate P u).client_id = P.client_id) ∧
    (c.role = "client" → findTask task_id db = some T →
      findProject T.project_id db = some P → P.client_id = c.id →
      update_task c task_id tu db =
        .ok ({ db with tasks := replaceTask task_id (applyTaskUpdate T tu) db.tasks },
             applyTaskUpdate T tu) ∧
      (applyTaskUpdate T tu).title = tu.title.getD T.title ∧
      (applyTaskUpdate T tu).description = tu.description.getD T.description ∧
      (applyTaskUpdate T tu).weight = tu.weight.getD T.weight ∧
      (applyTaskUpdate T tu).payout = tu.payout.getD T.payout ∧
      (applyTaskUpdate T tu).deadline = tu.deadline.getD T.deadline ∧
      (applyTaskUpdate T tu).status = tu.status.getD T.status ∧
      (applyTaskUpdate T tu).assignee_id = tu.assignee_id.getD T.assignee_id ∧
      (applyTaskUpdate T tu).pricing_type = tu.pricing_type.getD T.pricing_type ∧
      (applyTaskUpdate T tu).hourly_rate = tu.hourly_rate.getD T.hourly_rate ∧
      (applyTaskUpdate T tu).estimated_hours = tu.estimated_hours.getD T.estimated_hours ∧
      (applyTaskUpdate T tu).required_skills = tu.required_skills.getD T.required_skills ∧
      (applyTaskUpdate T tu).auto_assign = tu.auto_assign.getD T.auto_assign ∧
      (applyTaskUpdate T tu).id = T.id ∧
      (applyTaskUpdate T tu).project_id = T.project_id) := by
  constructor
  · intro hfind hown
    refine ⟨?_, rfl, rfl, rfl, rfl, rfl, rfl, rfl⟩
    simp [update_project, hfind, hown]
  · intro hrole hfindT hfindP hown
    refine ⟨?_, rfl, rfl, rfl, rfl, rfl, rfl, rfl, rfl, rfl, rfl, rfl, rfl, rfl, rfl⟩
    simp [update_task, hrole, hfindT, hfindP, hown]

/-- Request patching only `budget` to 20 (`title` absent). -/
def exPU : ProjectUpdate := { budget := some 20 }

/-- Request patching only `title` (`description` and the rest absent). -/
def exTU : TaskUpdate := { title := some "t100b" }

/-- Witness for C7: patching only `budget` of project 10 (`{title:"A",
budget:10}`) yields budget 20 with title still "A"; patching only the title
of task 100 keeps its description. -/
theorem update_partial_patch_witness :
    update_project aliceC 10 exPU exDB =
      .ok ({ exDB with projects := replaceProject 10 (applyProjectUpdate project10 exPU) exDB.projects },
           applyProjectUpdate project10 exPU) ∧
    (applyProjectUpdate project10 exPU).budget = 20 ∧
    (applyProjectUpdate project10 exPU).title = "A" ∧
    update_task aliceC 100 exTU exDB =
      .ok ({ exDB with tasks := replaceTask 100 (applyTaskUpdate task100 exTU) exDB.tasks },
           applyTaskUpdate task100 exTU) ∧
    (applyTaskUpdate task100 exTU).title = "t100b" ∧
    (applyTaskUpdate task100 exTU).description = "d" := by
  have h := update_partial_patch aliceC exDB 10 project10 exPU 100 task100 exTU
  exact ⟨(h.1 rfl rfl).1, rfl, rfl, (h.2 rfl rfl rfl rfl).1, rfl, rfl⟩

/-- Claim C4: the generic task-update path accepts `status` and
`assignee_id` for the owning client and writes them unconditionally — no
hypothesis constrains the task's current state, so this covers tasks already
assigned or not open, bypassing the claim precondition. -/
theorem update_task_sets_assignee (c : User) (db : DB) (task_id : Nat)
    (T : Task) (P : Project) (tu : TaskUpdate) (s : String) (a : Option Nat)
    (hrole : c.role = "client")
    (hfindT : findTask task_id db = some T)
    (hfindP : findProject T.project_id db = some P)
    (hown : P.client_id = c.id)
    (hs : tu.status = some s)
    (ha : tu.assignee_id = some a) :
    update_task c task_id tu db =
      .ok ({ db with tasks := replaceTask task_id (applyTaskUpdate T tu) db.tasks },
           applyTaskUpdate T tu) ∧
    (applyTaskUpdate T tu).status = s ∧
    (applyTaskUpdate T tu).assignee_id = a := by
  refine ⟨by simp [update_task, hrole, hfindT, hfindP, hown], ?_, ?_⟩
  · simp [applyTaskUpdate, hs]
  · simp [applyTaskUpdate, ha]

/-- Request reassigning an already-assigned task to worker 3 and rewriting
its status, issued through the generic update path. -/
def exTU2 : TaskUpdate := { status := some "assigned", assignee_id := some (some 3) }

/-- Witness for C4: task 101 is already assigned to worker 2 with status
"assigned" (violating the claim precondition), yet the owner's generic
update overwrites `assignee_id` to worker 3. -/
theorem update_task_sets_assignee_witness :
    task101.assignee_id = some 2 ∧
    (task101.status == "open") = false ∧
    update_task aliceC 101 exTU2 exDB =
      .ok ({ exDB with tasks := replaceTask 101 (applyTaskUpdate task101 exTU2) exDB.tasks },
           applyTaskUpdate task101 exTU2) ∧
    (applyTaskUpdate task101 exTU2).status = "assigned" ∧
    (applyTaskUpdate task101 exTU2).assignee_id = some 3 := by
  have h := update_task_sets_assignee aliceC exDB 101 task101 project10 exTU2
    "assigned" (some 3) rfl rfl rfl rfl rfl rfl
  exact ⟨rfl, rfl, h.1, h.2.1, h.2.2⟩

/-- The worker branch of the `get_tasks` query:
`Task.status == "open" AND Task.assignee_id IS NULL`. -/
def workerVisible (t : Task) : Bool :=
  t.status == "open" && !t.assignee_id.isSome

/-- The client branch of the `get_tasks` query: the task's project is in
`select(Project.id).where(Project.client_id == current_user.id)`. -/
def inClientProjects (uid : Nat) (db : DB) (t : Task) : Bool :=
  db.projects.any (fun p => p.client_id == uid && p.id == t.project_id)

/-- The optional `project_id` query-parameter filter of `get_tasks`. -/
def filterByProject (project_id : Option Nat) (l : List Task) : List Task :=
  match project_id with
  | some pid => l.filter (fun t => t.project_id == pid)
  | none => l

/-- The optional `status` query-parameter filter of `get_tasks`. -/
def filterByStatus (status : Option String) (l : List Task) : List Task :=
  match status with
  | some s => l.filter (fun t => t.status == s)
  | none => l

/-- `query.offset(skip).limit(limit)`. -/
def paginate (skip limit : Nat) (l : List Task) : List Task :=
  (l.drop skip).take limit

/-- `GET /tasks/` — `get_tasks` in `app/api/v1/endpoints/tasks.py`: a role
filter, then the optional query-parameter filters, then pagination. -/
def get_tasks (current_user : User) (project_id : Option Nat)
    (status : Option String) (skip limit : Nat) (db : DB) : List Task :=
  let q :=
    if current_user.role == "client" then
      db.tasks.filter (inClientProjects current_user.id db)
    else if current_user.role == "worker" then
      db.tasks.filter workerVisible
    else
      db.tasks
  paginate skip limit (filterByStatus status (filterByProject project_id q))

theorem mem_filterByProject {project_id : Option Nat} {l : List Task} {t : Task}
    (h : t ∈ filterByProject project_id l) : t ∈ l := by
  cases project_id with
  | none => exact h
  | some pid =>
    unfold filterByProject at h
    exact List.mem_of_mem_filter h

theorem mem_filterByStatus {status : Option String} {l : List Task} {t : Task}
    (h : t ∈ filterByStatus status l) : t ∈ l := by
  cases status with
  | none => exact h
  | some s =>
    unfold filterByStatus at h
    exact List.mem_of_mem_filter h

theorem mem_paginate {skip limit : Nat} {l : List Task} {t : Task}
    (h : t ∈ paginate skip limit l) : t ∈ l :=
  List.drop_subset _ _ (List.take_subset _ _ h)

/-- Claim C5: every task a worker receives from the list endpoint satisfies
`status == "open" && assignee_id == null` — the role filter is applied before
the query-parameter filters and pagination, which only shrink the list.  In
particular a worker never sees a task with `status != "open"` at all through
this endpoint. -/
theorem worker_task_list_all_open (w : User) (project_id : Option Nat)
    (status : Option String) (skip limit : Nat) (db : DB)
    (hrole : w.role = "worker") :
    (get_tasks w project_id status skip limit db).all workerVisible = true := by
  rw [List.all_eq_true]
  intro t ht
  rw [get_tasks, hrole] at ht
  simp only [show (("worker" : String) == "client") = false from rfl,
    Bool.false_eq_true, if_false, show (("worker" : String) == "worker") = true from rfl,
    if_true] at ht
  have h1 := mem_filterByProject (mem_filterByStatus (mem_paginate ht))
  exact of_decide_eq_true (by simpa using (List.mem_filter.mp h1).2)

/-- Witness for C5: the worker's list over the example store (which holds an
open task and an assigned one) contains only open unassigned tasks. -/
theorem worker_task_list_all_open_witness :
    (get_tasks bobW none none 0 100 exDB).all workerVisible = true :=
  worker_task_list_all_open bobW none none 0 100 exDB rfl

/-- `app/schemas/task.py` `TaskCreate` (= `TaskBase` plus `project_id`),
with the schema-level defaults pydantic fills in for unsupplied fields. -/
structure TaskCreate where
  title : String
  description : String
  weight : Int := 1
  payout : Int
  deadline : Option Nat := none
  pricing_type : String := "fixed"
  hourly_rate : Option Int := none
  estimated_hours : Option Int := none
  required_skills : List String := []
  auto_assign : Bool := false
  application_window_minutes : Int := 60
  project_id : Nat
deriving DecidableEq

/-- `Task(**task_data.dict())` with the model-level column defaults of
`app/models/task.py`: `status="open"`, and `assignee_id` a nullable column
left null.  `new_id` stands for the `uuid.uuid4` primary-key default the
store draws on insert. -/
def newTaskOf (data : TaskCreate) (new_id : Nat) : Task :=
  { id := new_id,
    project_id := data.project_id,
    title := data.title,
    description := data.description,
    weight := data.weight,
    assignee_id := none,
    status := "open",
    payout := data.payout,
    deadline := data.deadline,
    pricing_type := data.pricing_type,
    hourly_rate := data.hourly_rate,
    estimated_hours := data.estimated_hours,
    required_skills := data.required_skills,
    auto_assign := data.auto_assign,
    application_window_minutes := data.application_window_minutes }

/-- `POST /tasks/` — `create_task` in `app/api/v1/endpoints/tasks.py`:
parent-project existence, ownership, then insert. -/
def create_task (current_user : User) (task_data : TaskCreate) (new_id : Nat)
    (db : DB) : Except ApiError (DB × Task) :=
  match findProject task_data.project_id db with
  | none => .error (.notFound "Project not found")
  | some project =>
    if project.client_id != current_user.id then
      .error (.forbidden "Not authorized to create tasks for this project")
    else
      let db_task := newTaskOf task_data new_id
      .ok ({ db with tasks := db.tasks ++ [db_task] }, db_task)

/-- `GET /tasks/{task_id}` — `get_task` in `app/api/v1/endpoints/tasks.py`.
The permission check consults `task.project` for clients and
`assignee_id`/`status` for workers. -/
def get_task (current_user : User) (task_id : Nat) (db : DB) :
    Except ApiError Task :=
  match findTask task_id db with
  | none => .error (.notFound "Task not found")
  | some task =>
    match findProject task.project_id db with
    | none => .error (.serverError "task has no parent project")
    | some project =>
      if (current_user.role == "client" && project.client_id != current_user.id) ||
         (current_user.role == "worker" && task.assignee_id != some current_user.id &&
           task.status != "open") then
        .error (.forbidden "Not authorized to view this task")
      else
        .ok task

/-- The fresh-primary-key guarantee of the store: no stored task already has
the id drawn for the insert. -/
def taskIdFresh (task_id : Nat) (db : DB) : Bool :=
  db.tasks.all (fun t => !(t.id == task_id))

/-- Appending a row whose id matches no existing row makes it the row
`find?` returns for that id. -/
theorem find?_append_fresh (l : List Task) (t : Task) (task_id : Nat)
    (h : ∀ x ∈ l, (x.id == task_id) = false)
    (ht : (t.id == task_id) = true) :
    (l ++ [t]).find? (fun x => x.id == task_id) = some t := by
  induction l with
  | nil =>
    simp [List.find?, ht]
  | cons a l ih =>
    have ha : ¬((a.id == task_id) = true) := by
      simp [h a (List.mem_cons_self a l)]
    rw [List.cons_append,
      @List.find?_cons_of_neg _ (fun x => x.id == task_id) a _ ha]
    exact ih (fun x hx => h x (List.mem_cons_of_mem a hx))

/-- Claim C9: the owning client creating a task and immediately fetching it
by id gets back exactly the inserted row: every supplied field equals the
request value, and the unsupplied columns carry the defaults
`status = "open"` and `assignee_id = null` (the schema defaults
`pricing_type = "fixed"`, `application_window_minutes = 60`, exercised by the
witness, flow through `data`). -/
theorem create_then_get_roundtrip (c : User) (data : TaskCreate)
    (new_id : Nat) (db : DB) (P : Project)
    (hrole : c.role = "client")
    (hfindP : findProject data.project_id db = some P)
    (hown : P.client_id = c.id)
    (hfresh : taskIdFresh new_id db = true) :
    create_task c data new_id db =
      .ok ({ db with tasks := db.tasks ++ [newTaskOf data new_id] },
           newTaskOf data new_id) ∧
    get_task c new_id { db with tasks := db.tasks ++ [newTaskOf data new_id] } =
      .ok (newTaskOf data new_id) ∧
    (newTaskOf data new_id).title = data.title ∧
    (newTaskOf data new_id).description = data.description ∧
    (newTaskOf data new_id).weight = data.weight ∧
    (newTaskOf data new_id).payout = data.payout ∧
    (newTaskOf data new_id).deadline = data.deadline ∧
    (newTaskOf data new_id).pricing_type = data.pricing_type ∧
    (newTaskOf data new_id).hourly_rate = data.hourly_rate ∧
    (newTaskOf data new_id).estimated_hours = data.estimated_hours ∧
    (newTaskOf data new_id).required_skills = data.required_skills ∧
    (newTaskOf data new_id).auto_assign = data.auto_assign ∧
    (newTaskOf data new_id).application_window_minutes = data.application_window_minutes ∧
    (newTaskOf data new_id).project_id = data.project_id ∧
    (newTaskOf data new_id).status = "open" ∧
    (newTaskOf data new_id).assignee_id = none := by
  refine ⟨?_, ?_, rfl, rfl, rfl, rfl, rfl, rfl, rfl, rfl, rfl, rfl, rfl, rfl, rfl, rfl⟩
  · simp [create_task, hfindP, hown]
  · have hfind' :
        findTask new_id { db with tasks := db.tasks ++ [newTaskOf data new_id] } =
          some (newTaskOf data new_id) := by
      rw [taskIdFresh, List.all_eq_true] at hfresh
      refine find?_append_fresh db.tasks (newTaskOf data new_id) new_id ?_ (by simp [newTaskOf])
      intro x hx
      simpa using hfresh x hx
    have hproj :
        findProject (newTaskOf data new_id).project_id
          { db with tasks := db.tasks ++ [newTaskOf data new_id] } = some P := hfindP
    simp [get_task, hfind', hproj, hrole, hown]

/-- A creation request supplying only the required fields, leaving
`pricing_type`, `application_window_minutes`, `weight`, `auto_assign` at
their schema defaults. -/
def exCreate : TaskCreate :=
  { title := "new task", description := "nd", payout := 42, project_id := 10 }

/-- Witness for C9: `aliceC` creates a task in her project 10 with fresh id
200 and reads back exactly the inserted row, whose unsupplied fields carry
the defaults the claim lists. -/
theorem create_then_get_roundtrip_witness :
    taskIdFresh 200 exDB = true ∧
    create_task aliceC exCreate 200 exDB =
      .ok ({ exDB with tasks := exDB.tasks ++ [newTaskOf exCreate 200] },
           newTaskOf exCreate 200) ∧
    get_task aliceC 200 { exDB with tasks := exDB.tasks ++ [newTaskOf exCreate 200] } =
      .ok (newTaskOf exCreate 200) ∧
    (newTaskOf exCreate 200).status = "open" ∧
    (newTaskOf exCreate 200).pricing_type = "fixed" ∧
    (newTaskOf exCreate 200).application_window_minutes = 60 ∧
    (newTaskOf exCreate 200).assignee_id = none := by
  have h := create_then_get_roundtrip aliceC exCreate 200 exDB project10 rfl rfl rfl rfl
  exact ⟨rfl, h.1, h.2.1, rfl, rfl, rfl, rfl⟩

/-- The rows `mark_all_notifications_read` selects:
`Notification.user_id == current_user.id, Notification.read == False`. -/
def unreadOwnedBy (uid : Nat) (n : Notification) : Bool :=
  n.user_id == uid && !n.read

/-- `len(notifications)` for the selected rows. -/
def countUnreadOwned (uid : Nat) (db : DB) : Nat :=
  (db.notifications.filter (unreadOwnedBy uid)).length

/-- The per-row effect of the `for notification in notifications:
notification.read = True` loop: a selected row is flipped, every other row
is untouched. -/
def markReadIfUnreadOwned (uid : Nat) (n : Notification) : Notification :=
  if unreadOwnedBy uid n then { n with read := true } else n

/-- `PUT /notifications/mark-all-read` — `mark_all_notifications_read` in
`app/api/v1/endpoints/notifications.py`.  The response body is the returned
dict, modelled as its list of key/value pairs: the handler returns only
`{"message": f"Marked {len(notifications)} notifications as read"}`. -/
def mark_all_notifications_read (current_user : User) (db : DB) :
    DB × List (String × String) :=
  let n := countUnreadOwned current_user.id db
  ({ db with
     notifications := db.notifications.map (markReadIfUnreadOwned current_user.id) },
   [("message", "Marked " ++ toString n ++ " notifications as read")])

/-- Every notification of the given user in the list is read. -/
def allOwnedRead (uid : Nat) (l : List Notification) : Bool :=
  l.all (fun n => !(n.user_id == uid) || n.read)

/-- The notifications of the other users, in order. -/
def othersOf (uid : Nat) (l : List Notification) : List Notification :=
  l.filter (fun n => !(n.user_id == uid))

theorem othersOf_map_markRead (uid : Nat) (l : List Notification) :
    othersOf uid (l.map (markReadIfUnreadOwned uid)) = othersOf uid l := by
  induction l with
  | nil => rfl
  | cons a l ih =>
    simp only [List.map_cons, othersOf] at ih ⊢
    by_cases ha : (a.user_id == uid) = true
    · by_cases hr : a.read = true
      · simp [markReadIfUnreadOwned, unreadOwnedBy, ha, hr, ih]
      · simp only [Bool.not_eq_true] at hr
        simp [markReadIfUnreadOwned, unreadOwnedBy, ha, hr, ih]
    · have ha' : (a.user_id == uid) = false := Bool.eq_false_iff.mpr ha
      simp [markReadIfUnreadOwned, unreadOwnedBy, ha', ih]

-- Example mailbox for C8: user 1 has notifications 1,2,3 unread and 4,5
-- read; user 2 has the unread notification 6.

def exNotif (i : Nat) (uid : Nat) (r : Bool) : Notification :=
  { id := i, user_id := uid, title := "n", message := "m", type := "info", read := r }

def exDB8 : DB :=
  { users := [aliceC, bobW], projects := [], tasks := [],
    notifications :=
      [exNotif 1 1 false, exNotif 2 1 false, exNotif 3 1 false,
       exNotif 4 1 true, exNotif 5 1 true, exNotif 6 2 false] }

/-- Counterexample to C8 as stated: the claim says the result contains a
`count` field; for the example user with 3 unread and 2 read notifications
the handler's response dict has the single key `"message"` (the number 3 is
embedded in the message string), so no `count` field exists. -/
theorem mark_all_read_no_count_field :
    countUnreadOwned 1 exDB8 = 3 ∧
    (exDB8.notifications.filter (fun n => n.user_id == 1)).length = 5 ∧
    (mark_all_notifications_read aliceC exDB8).2 =
      [("message", "Marked 3 notifications as read")] ∧
    ((mark_all_notifications_read aliceC exDB8).2.map Prod.fst).contains "count" = false := by
  refine ⟨by decide, by decide, by decide, by decide⟩

/-- Claim C8 amended: mark-all-read flips `read := true` on every
notification owned by the actor that was unread, changes no notification of
any other user, touches no other table, and reports the number flipped — but
embedded in the `message` string rather than as a separate `count` field. -/
theorem mark_all_read_flips_owned (u : User) (db : DB) :
    (mark_all_notifications_read u db).2 =
      [("message",
        "Marked " ++ toString (countUnreadOwned u.id db) ++ " notifications as read")] ∧
    allOwnedRead u.id (mark_all_notifications_read u db).1.notifications = true ∧
    othersOf u.id (mark_all_notifications_read u db).1.notifications =
      othersOf u.id db.notifications ∧
    (mark_all_notifications_read u db).1.notifications.length =
      db.notifications.length ∧
    (mark_all_notifications_read u db).1.users = db.users ∧
    (mark_all_notifications_read u db).1.projects = db.projects ∧
    (mark_all_notifications_read u db).1.tasks = db.tasks := by
  refine ⟨rfl, ?_, othersOf_map_markRead u.id db.notifications, by
    simp [mark_all_notifications_read], rfl, rfl, rfl⟩
  rw [allOwnedRead, List.all_eq_true]
  intro n hn
  rw [mark_all_notifications_read] at hn
  simp only [List.mem_map] at hn
  obtain ⟨a, _, rfl⟩ := hn
  by_cases hu : (a.user_id == u.id) = true
  all_goals by_cases hr : a.read = true
  all_goals simp [markReadIfUnreadOwned, unreadOwnedBy, hu, hr]

end CrediTask
